import Mathlib

/-!
Verification of the conformance-check module of the icann-rdap repository
(`icann-rdap-common/src/check/mod.rs`), shallowly embedded in Lean 4.

The data model (`CheckClass`, `RdapStructure`, `Check`, `CheckItem`,
`Checks`, `CheckParams`) and the operations (`Check.check_item`,
`traverse_checks`, `is_checked`, `is_checked_item`,
`CheckParams.from_parent`, the derived orderings) are translated from the
Rust source.  The visitor callback of `traverse_checks` (a Rust `FnMut`)
is embedded by returning, next to the boolean result, the list of
`(path, item)` arguments the visitor is invoked with, in invocation order.
-/

namespace IcannRdap

/-- Severity classes of checks, in the declaration order of the Rust enum
`CheckClass`.  The Rust derive of `PartialOrd`/`Ord` compares the implicit
discriminants, i.e. the declaration positions. -/
inductive CheckClass where
  | Informational
  | SpecificationNote
  | StdWarning
  | StdError
  | Cidr0Error
  | IcannError
deriving DecidableEq

/-- The implicit Rust discriminant of a `CheckClass` variant: its position
in the declaration order. -/
def CheckClass.discriminant : CheckClass → Nat
  | .Informational => 0
  | .SpecificationNote => 1
  | .StdWarning => 2
  | .StdError => 3
  | .Cidr0Error => 4
  | .IcannError => 5

/-- The comparison produced by Rust `derive(PartialOrd, Ord)` on the
field-less enum `CheckClass`: comparison of discriminants. -/
def CheckClass.cmp (a b : CheckClass) : Ordering :=
  compare a.discriminant b.discriminant

/-- Structural labels of check-tree nodes (Rust enum `RdapStructure`). -/
inductive RdapStructure where
  | Autnum
  | Cidr0
  | Domain
  | DomainSearchResults
  | Entity
  | EntitySearchResults
  | Events
  | Error
  | Help
  | Handle
  | HttpData
  | IpNetwork
  | Link
  | Links
  | Nameserver
  | NameserverSearchResults
  | NoticeOrRemark
  | Notices
  | PublidIds
  | Port43
  | RdapConformance
  | Redacted
  | Remarks
  | SecureDns
  | Status
deriving DecidableEq

/-- The strum `Display` of `RdapStructure` (`serialize_all = "snake_case"`),
used when `traverse_checks` renders a node label into the path string. -/
def RdapStructure.display : RdapStructure → String
  | .Autnum => "autnum"
  | .Cidr0 => "cidr0"
  | .Domain => "domain"
  | .DomainSearchResults => "domain_search_results"
  | .Entity => "entity"
  | .EntitySearchResults => "entity_search_results"
  | .Events => "events"
  | .Error => "error"
  | .Help => "help"
  | .Handle => "handle"
  | .HttpData => "http_data"
  | .IpNetwork => "ip_network"
  | .Link => "link"
  | .Links => "links"
  | .Nameserver => "nameserver"
  | .NameserverSearchResults => "nameserver_search_results"
  | .NoticeOrRemark => "notice_or_remark"
  | .Notices => "notices"
  | .PublidIds => "publid_ids"
  | .Port43 => "port43"
  | .RdapConformance => "rdap_conformance"
  | .Redacted => "redacted"
  | .Remarks => "remarks"
  | .SecureDns => "secure_dns"
  | .Status => "status"

/-- The variant check types (Rust enum `Check`), with their explicit
numeric discriminants recorded by `Check.code` below. -/
inductive Check where
  | RdapConformanceMissing
  | RdapConformanceInvalidParent
  | UnknownExtention
  | LinkMissingValueProperty
  | LinkMissingRelProperty
  | LinkRelatedHasNoType
  | LinkRelatedIsNotRdap
  | LinkSelfHasNoType
  | LinkSelfIsNotRdap
  | LinkObjectClassHasNoSelf
  | LinkMissingHrefProperty
  | VariantEmptyDomain
  | EventDateIsAbsent
  | EventDateIsNotRfc3339
  | EventActionIsAbsent
  | NoticeOrRemarkDescriptionIsAbsent
  | NoticeOrRemarkDescriptionIsString
  | HandleIsEmpty
  | HandleIsNotString
  | StatusIsEmpty
  | RoleIsEmpty
  | UnknownRole
  | RoleIsString
  | LdhNameInvalid
  | LdhNameDocumentation
  | LdhNameDoesNotMatchUnicode
  | UnicodeNameInvalidDomain
  | UnicodeNameInvalidUnicode
  | NetworkOrAutnumNameIsEmpty
  | NetworkOrAutnumNameIsNotString
  | NetworkOrAutnumTypeIsEmpty
  | NetworkOrAutnumTypeIsNotString
  | IpAddressMissing
  | IpAddressMalformed
  | IpAddressEndBeforeStart
  | IpAddressVersionMismatch
  | IpAddressMalformedVersion
  | IpAddressListIsEmpty
  | IpAddressThisNetwork
  | IpAddressPrivateUse
  | IpAddressSharedNat
  | IpAddressLoopback
  | IpAddressLinkLocal
  | IpAddressUniqueLocal
  | IpAddressDocumentationNet
  | IpAddressReservedNet
  | IpAddressArrayIsString
  | IpVersionIsNotString
  | AutnumMissing
  | AutnumEndBeforeStart
  | AutnumPrivateUse
  | AutnumDocumentation
  | AutnumReserved
  | VcardArrayIsEmpty
  | VcardHasNoFn
  | VcardFnIsEmpty
  | Port43IsEmpty
  | PublicIdTypeIsAbsent
  | PublicIdIdentifierIsAbsent
  | CorsAllowOriginRecommended
  | CorsAllowOriginStarRecommended
  | CorsAllowCredentialsNotRecommended
  | ContentTypeIsAbsent
  | ContentTypeIsNotRdap
  | Cidr0V4PrefixIsAbsent
  | Cidr0V4LengthIsAbsent
  | Cidr0V6PrefixIsAbsent
  | Cidr0V6LengthIsAbsent
  | MustUseHttps
  | AllowOriginNotStar
  | CnameWithoutARecords
  | CnameWithoutAAAARecords
  | NoARecords
  | NoAAAARecords
  | ExpectedExtensionNotFound
  | Ipv6SupportRequiredByIcann
  | DelegationSignedIsString
  | ZoneSignedIsString
  | MaxSigLifeIsString
  | KeyDatumAlgorithmIsString
  | KeyDatumAlgorithmIsOutOfRange
  | KeyDatumFlagsIsString
  | KeyDatumFlagsIsOutOfRange
  | KeyDatumProtocolIsString
  | KeyDatumProtocolIsOutOfRange
  | DsDatumAlgorithmIsString
  | DsDatumAlgorithmIsOutOfRange
  | DsDatumKeyTagIsString
  | DsDatumKeyTagIsOutOfRange
  | DsDatumDigestTypeIsString
  | DsDatumDigestTypeIsOutOfRange
deriving DecidableEq

/-- The explicit numeric discriminant each `Check` variant is declared
with in the Rust source (`RdapConformanceMissing = 100`, ...). -/
def Check.code : Check → Nat
  | .RdapConformanceMissing => 100
  | .RdapConformanceInvalidParent => 101
  | .UnknownExtention => 102
  | .LinkMissingValueProperty => 200
  | .LinkMissingRelProperty => 201
  | .LinkRelatedHasNoType => 202
  | .LinkRelatedIsNotRdap => 203
  | .LinkSelfHasNoType => 204
  | .LinkSelfIsNotRdap => 205
  | .LinkObjectClassHasNoSelf => 206
  | .LinkMissingHrefProperty => 207
  | .VariantEmptyDomain => 300
  | .EventDateIsAbsent => 400
  | .EventDateIsNotRfc3339 => 401
  | .EventActionIsAbsent => 402
  | .NoticeOrRemarkDescriptionIsAbsent => 500
  | .NoticeOrRemarkDescriptionIsString => 501
  | .HandleIsEmpty => 600
  | .HandleIsNotString => 601
  | .StatusIsEmpty => 700
  | .RoleIsEmpty => 800
  | .UnknownRole => 801
  | .RoleIsString => 802
  | .LdhNameInvalid => 900
  | .LdhNameDocumentation => 901
  | .LdhNameDoesNotMatchUnicode => 902
  | .UnicodeNameInvalidDomain => 1000
  | .UnicodeNameInvalidUnicode => 1001
  | .NetworkOrAutnumNameIsEmpty => 1100
  | .NetworkOrAutnumNameIsNotString => 1101
  | .NetworkOrAutnumTypeIsEmpty => 1200
  | .NetworkOrAutnumTypeIsNotString => 1201
  | .IpAddressMissing => 1300
  | .IpAddressMalformed => 1301
  | .IpAddressEndBeforeStart => 1302
  | .IpAddressVersionMismatch => 1303
  | .IpAddressMalformedVersion => 1304
  | .IpAddressListIsEmpty => 1305
  | .IpAddressThisNetwork => 1306
  | .IpAddressPrivateUse => 1307
  | .IpAddressSharedNat => 1308
  | .IpAddressLoopback => 1309
  | .IpAddressLinkLocal => 1310
  | .IpAddressUniqueLocal => 1311
  | .IpAddressDocumentationNet => 1312
  | .IpAddressReservedNet => 1313
  | .IpAddressArrayIsString => 1314
  | .IpVersionIsNotString => 1315
  | .AutnumMissing => 1400
  | .AutnumEndBeforeStart => 1401
  | .AutnumPrivateUse => 1402
  | .AutnumDocumentation => 1403
  | .AutnumReserved => 1404
  | .VcardArrayIsEmpty => 1500
  | .VcardHasNoFn => 1501
  | .VcardFnIsEmpty => 1502
  | .Port43IsEmpty => 1600
  | .PublicIdTypeIsAbsent => 1700
  | .PublicIdIdentifierIsAbsent => 1701
  | .CorsAllowOriginRecommended => 1800
  | .CorsAllowOriginStarRecommended => 1801
  | .CorsAllowCredentialsNotRecommended => 1802
  | .ContentTypeIsAbsent => 1803
  | .ContentTypeIsNotRdap => 1804
  | .Cidr0V4PrefixIsAbsent => 1900
  | .Cidr0V4LengthIsAbsent => 1901
  | .Cidr0V6PrefixIsAbsent => 1902
  | .Cidr0V6LengthIsAbsent => 1903
  | .MustUseHttps => 2000
  | .AllowOriginNotStar => 2001
  | .CnameWithoutARecords => 2100
  | .CnameWithoutAAAARecords => 2101
  | .NoARecords => 2102
  | .NoAAAARecords => 2103
  | .ExpectedExtensionNotFound => 2104
  | .Ipv6SupportRequiredByIcann => 2105
  | .DelegationSignedIsString => 2200
  | .ZoneSignedIsString => 2201
  | .MaxSigLifeIsString => 2202
  | .KeyDatumAlgorithmIsString => 2203
  | .KeyDatumAlgorithmIsOutOfRange => 2204
  | .KeyDatumFlagsIsString => 2205
  | .KeyDatumFlagsIsOutOfRange => 2206
  | .KeyDatumProtocolIsString => 2207
  | .KeyDatumProtocolIsOutOfRange => 2208
  | .DsDatumAlgorithmIsString => 2213
  | .DsDatumAlgorithmIsOutOfRange => 2214
  | .DsDatumKeyTagIsString => 2215
  | .DsDatumKeyTagIsOutOfRange => 2216
  | .DsDatumDigestTypeIsString => 2217
  | .DsDatumDigestTypeIsOutOfRange => 2218

/-- The comparison produced by Rust `derive(PartialOrd, Ord)` on the enum
`Check`: comparison of the (explicit) numeric discriminants. -/
def Check.cmp (a b : Check) : Ordering :=
  compare a.code b.code

/-- A specific check item (Rust struct `CheckItem`): a severity class
paired with a check identifier, fields in the declaration order of the
source. -/
structure CheckItem where
  check_class : CheckClass
  check : Check
deriving DecidableEq

/-- The comparison produced by Rust `derive(PartialOrd, Ord)` on the
struct `CheckItem`: lexicographic on the fields in declaration order,
`check_class` first, then `check`. -/
def CheckItem.cmp (a b : CheckItem) : Ordering :=
  match CheckClass.cmp a.check_class b.check_class with
  | Ordering.eq => Check.cmp a.check b.check
  | ord => ord

/-- A check-tree node (Rust struct `Checks`): a structural label, the
node's own check items, and the child nodes. -/
inductive Checks where
  | mk (rdap_struct : RdapStructure) (items : List CheckItem) (sub_checks : List Checks)

/-- Projection of the `rdap_struct` field. -/
def Checks.rdap_struct : Checks → RdapStructure
  | .mk s _ _ => s

/-- Projection of the `items` field. -/
def Checks.items : Checks → List CheckItem
  | .mk _ i _ => i

/-- Projection of the `sub_checks` field. -/
def Checks.sub_checks : Checks → List Checks
  | .mk _ _ s => s

/-- Translation of `Check::check_item`, the canonical and sole constructor
of `CheckItem`: an exhaustive match (no wildcard arm) assigning each check
identifier its severity class, paired with the identifier itself. -/
def Check.check_item (c : Check) : CheckItem :=
  let check_class : CheckClass :=
    match c with
    | .RdapConformanceMissing | .RdapConformanceInvalidParent => CheckClass.StdError
    | .UnknownExtention => CheckClass.StdWarning
    | .LinkMissingValueProperty | .LinkMissingRelProperty => CheckClass.StdError
    | .LinkRelatedHasNoType
    | .LinkRelatedIsNotRdap
    | .LinkSelfHasNoType
    | .LinkSelfIsNotRdap => CheckClass.StdWarning
    | .LinkObjectClassHasNoSelf => CheckClass.SpecificationNote
    | .LinkMissingHrefProperty => CheckClass.StdError
    | .VariantEmptyDomain => CheckClass.StdWarning
    | .EventDateIsAbsent
    | .EventDateIsNotRfc3339
    | .EventActionIsAbsent
    | .NoticeOrRemarkDescriptionIsAbsent
    | .NoticeOrRemarkDescriptionIsString => CheckClass.StdError
    | .HandleIsEmpty => CheckClass.StdWarning
    | .HandleIsNotString => CheckClass.StdError
    | .StatusIsEmpty | .RoleIsEmpty => CheckClass.StdError
    | .UnknownRole => CheckClass.StdWarning
    | .RoleIsString | .LdhNameInvalid => CheckClass.StdError
    | .LdhNameDocumentation => CheckClass.Informational
    | .LdhNameDoesNotMatchUnicode => CheckClass.StdWarning
    | .UnicodeNameInvalidDomain | .UnicodeNameInvalidUnicode => CheckClass.StdError
    | .NetworkOrAutnumNameIsEmpty => CheckClass.StdWarning
    | .NetworkOrAutnumNameIsNotString => CheckClass.StdError
    | .NetworkOrAutnumTypeIsEmpty => CheckClass.StdWarning
    | .NetworkOrAutnumTypeIsNotString => CheckClass.StdError
    | .IpAddressMissing => CheckClass.StdWarning
    | .IpAddressMalformed => CheckClass.StdError
    | .IpAddressEndBeforeStart | .IpAddressVersionMismatch => CheckClass.StdWarning
    | .IpAddressMalformedVersion | .IpAddressListIsEmpty => CheckClass.StdError
    | .IpAddressThisNetwork
    | .IpAddressPrivateUse
    | .IpAddressSharedNat
    | .IpAddressLoopback
    | .IpAddressLinkLocal
    | .IpAddressUniqueLocal
    | .IpAddressDocumentationNet
    | .IpAddressReservedNet => CheckClass.Informational
    | .IpAddressArrayIsString => CheckClass.StdError
    | .IpVersionIsNotString => CheckClass.StdError
    | .AutnumMissing | .AutnumEndBeforeStart => CheckClass.StdWarning
    | .AutnumPrivateUse | .AutnumDocumentation | .AutnumReserved =>
        CheckClass.Informational
    | .VcardArrayIsEmpty | .VcardHasNoFn => CheckClass.StdError
    | .VcardFnIsEmpty => CheckClass.SpecificationNote
    | .Port43IsEmpty | .PublicIdTypeIsAbsent | .PublicIdIdentifierIsAbsent =>
        CheckClass.StdError
    | .CorsAllowOriginRecommended
    | .CorsAllowOriginStarRecommended
    | .CorsAllowCredentialsNotRecommended => CheckClass.StdWarning
    | .ContentTypeIsAbsent | .ContentTypeIsNotRdap => CheckClass.StdError
    | .Cidr0V4PrefixIsAbsent
    | .Cidr0V4LengthIsAbsent
    | .Cidr0V6PrefixIsAbsent
    | .Cidr0V6LengthIsAbsent => CheckClass.Cidr0Error
    | .MustUseHttps | .AllowOriginNotStar => CheckClass.IcannError
    | .CnameWithoutARecords | .CnameWithoutAAAARecords => CheckClass.StdError
    | .NoARecords | .NoAAAARecords => CheckClass.SpecificationNote
    | .ExpectedExtensionNotFound => CheckClass.StdError
    | .Ipv6SupportRequiredByIcann => CheckClass.IcannError
    | .DelegationSignedIsString
    | .ZoneSignedIsString
    | .MaxSigLifeIsString
    | .KeyDatumAlgorithmIsString
    | .KeyDatumAlgorithmIsOutOfRange
    | .KeyDatumFlagsIsString
    | .KeyDatumFlagsIsOutOfRange
    | .KeyDatumProtocolIsString
    | .KeyDatumProtocolIsOutOfRange
    | .DsDatumAlgorithmIsString
    | .DsDatumAlgorithmIsOutOfRange
    | .DsDatumKeyTagIsString
    | .DsDatumKeyTagIsOutOfRange
    | .DsDatumDigestTypeIsString
    | .DsDatumDigestTypeIsOutOfRange => CheckClass.StdError
  ⟨check_class, c⟩

mutual

/-- Translation of the free function `traverse_checks`.  The Rust visitor
`f: FnMut(&str, &CheckItem)` is embedded by returning, next to the boolean
result, the list of `(struct_tree, item)` pairs the visitor is called
with, in call order: the node builds its path by appending its label to
the parent path (root sentinel `"[ROOT]"`), calls the visitor on each own
item whose class is in `classes`, then recurses into the children in
order, OR-ing their results. -/
def traverse_checks (checks : Checks) (classes : List CheckClass)
    (parent_tree : Option String) : Bool × List (String × CheckItem) :=
  match checks with
  | .mk rdap_struct items sub_checks =>
    let struct_tree :=
      (Option.getD parent_tree ("[ROOT]")) ++ "/" ++ rdap_struct.display
    let own := items.filter (fun item => decide (item.check_class ∈ classes))
    let sub := traverse_checks_list sub_checks classes struct_tree
    (!own.isEmpty || sub.1, own.map (fun item => (struct_tree, item)) ++ sub.2)

/-- The `for sub_checks in &checks.sub_checks` loop of `traverse_checks`:
each child is traversed with the current path as parent; a `true` result
from any child makes the whole result `true`, and the visitor calls of the
children are concatenated in order. -/
def traverse_checks_list (l : List Checks) (classes : List CheckClass)
    (struct_tree : String) : Bool × List (String × CheckItem) :=
  match l with
  | [] => (false, [])
  | c :: cs =>
    let r := traverse_checks c classes (some struct_tree)
    let rs := traverse_checks_list cs classes struct_tree
    (r.1 || rs.1, r.2 ++ rs.2)

end

/-- Translation of `is_checked_item`: true iff the exact check appears in
the node's own item list (`checks.items.iter().any(|c| c.check == check)`). -/
def is_checked_item (check : Check) (checks : Checks) : Bool :=
  checks.items.any (fun c => decide (c.check = check))

/-- Translation of `is_checked`: true iff the check is found in the own
item list of one of the trees of the slice. -/
def is_checked (check : Check) (checks : List Checks) : Bool :=
  checks.any (fun c => is_checked_item check c)

mutual

/-- All check items of a tree: the node's own items followed by those of
all descendants (used to state what "anywhere in the tree" means; written
from the claims, independently of `traverse_checks`). -/
def Checks.allItems : Checks → List CheckItem
  | .mk _ items subs => items ++ Checks.allItemsList subs

/-- All check items of a forest, in order. -/
def Checks.allItemsList : List Checks → List CheckItem
  | [] => []
  | c :: cs => c.allItems ++ Checks.allItemsList cs

end

/-- Modelled from the spec: the closed polymorphic union of the ten
top-level RDAP response shapes.  The enum `RdapResponse` lives in the
response module of the repository, which is not among the provided source
files; each variant's payload is abstracted to a numeric identifier, since
`CheckParams` only stores a reference to the root response and never
inspects it in the operations verified here. -/
inductive RdapResponse where
  | Entity (id : Nat)
  | Domain (id : Nat)
  | Nameserver (id : Nat)
  | Autnum (id : Nat)
  | Network (id : Nat)
  | DomainSearchResults (id : Nat)
  | EntitySearchResults (id : Nat)
  | NameserverSearchResults (id : Nat)
  | ErrorResponse (id : Nat)
  | Help (id : Nat)
deriving DecidableEq

/-- Modelled from the spec: Rust `std::any::TypeId` is an opaque identity
of a type, represented here by a natural number. -/
def TypeId : Type := Nat

/-- Parameters for finding checks (Rust struct `CheckParams`, the
lifetime-bound reference `root: &'a RdapResponse` embedded as a value). -/
structure CheckParams where
  do_subchecks : Bool
  root : RdapResponse
  parent_type : TypeId
  allow_unreg_ext : Bool

/-- Translation of `CheckParams::from_parent`: a copy of the parameters
with the `parent_type` field replaced. -/
def CheckParams.from_parent (p : CheckParams) (parent_type : TypeId) :
    CheckParams :=
  ⟨p.do_subchecks, p.root, parent_type, p.allow_unreg_ext⟩

/-- The two-node tree of the spec's traversal-path property: a root node
labeled `Entity` with one child labeled `Autnum`, each holding one
Informational item (the items are the ones used by the repository's own
traversal test). -/
def exampleEntityAutnumTree : Checks :=
  Checks.mk RdapStructure.Entity
    [⟨CheckClass.Informational, Check.RdapConformanceInvalidParent⟩]
    [Checks.mk RdapStructure.Autnum
      [⟨CheckClass.Informational, Check.VariantEmptyDomain⟩]
      []]

/-- A tree whose only occurrence of `VariantEmptyDomain` sits in a
sub-check node, not in the root's own item list. -/
def subOnlyTree : Checks :=
  Checks.mk RdapStructure.Entity
    []
    [Checks.mk RdapStructure.Autnum
      [⟨CheckClass.StdWarning, Check.VariantEmptyDomain⟩]
      []]

/-- A one-node tree holding `HandleIsEmpty` (code 600) only, used to show
that the structurally similar but distinct `StatusIsEmpty` (code 700)
does not match. -/
def distinctIdTree : Checks :=
  Checks.mk RdapStructure.Entity
    [⟨CheckClass.StdWarning, Check.HandleIsEmpty⟩]
    []

/-- A one-node tree whose item carries `HandleIsEmpty` under the class
`Informational`, which differs from the canonical classification
(`StdWarning`) that `Check.check_item` assigns to `HandleIsEmpty`. -/
def nonCanonicalTree : Checks :=
  Checks.mk RdapStructure.Entity
    [⟨CheckClass.Informational, Check.HandleIsEmpty⟩]
    []

/-! Helper lemmas shared by the claim theorems. -/

/-- Filtering a list leaves it empty exactly when no element satisfies
the predicate. -/
theorem filter_isEmpty_eq_not_any {α : Type} (p : α → Bool) (l : List α) :
    (l.filter p).isEmpty = !l.any p := by
  induction l with
  | nil => rfl
  | cons a l ih => cases h : p a <;> simp [List.filter_cons, h, ih]

/-- Occurrence count in a filtered list: a kept element keeps its count,
a dropped one counts zero. -/
theorem count_filter_split {α : Type} [DecidableEq α] (p : α → Bool) (a : α)
    (l : List α) :
    (l.filter p).count a = if p a = true then l.count a else 0 := by
  induction l with
  | nil => simp
  | cons b l ih =>
    by_cases hba : b = a
    · subst hba
      cases h : p b <;> simp [List.filter_cons, h, List.count_cons, ih]
    · have hbeq : (b == a) = false := by simp [hba]
      cases h : p b <;> simp [List.filter_cons, h, List.count_cons, ih, hbeq]

/-- Structural induction over `Checks` with the induction hypothesis
available for every child of the node. -/
theorem Checks.recOn_subs {P : Checks → Prop}
    (h : ∀ s items subs, (∀ c ∈ subs, P c) → P (Checks.mk s items subs)) :
    ∀ c, P c
  | .mk s items subs =>
      h s items subs (fun c _hc => Checks.recOn_subs h c)
termination_by c => sizeOf c
decreasing_by
  have := List.sizeOf_lt_of_mem _hc
  simp_wf
  omega

/-- The children loop of `traverse_checks` passes each child to the
visitor-log semantics in order; given the per-child characterisation of
the logged items, the loop's logged items are those of the forest. -/
theorem traverse_checks_list_snd (classes : List CheckClass) :
    ∀ (l : List Checks) (st : String),
      (∀ c ∈ l, ∀ parent,
          ((traverse_checks c classes parent).2).map Prod.snd
            = c.allItems.filter (fun i => decide (i.check_class ∈ classes))) →
      ((traverse_checks_list l classes st).2).map Prod.snd
        = (Checks.allItemsList l).filter
            (fun i => decide (i.check_class ∈ classes))
  | [], _, _ => by simp [traverse_checks_list, Checks.allItemsList]
  | c :: cs, st, h => by
    have h1 := h c (by simp) (some st)
    have h2 := traverse_checks_list_snd classes cs st
      (fun x hx parent => h x (by simp [hx]) parent)
    simp [traverse_checks_list, Checks.allItemsList, List.filter_append, h1, h2]

/-- The items `traverse_checks` hands to the visitor are exactly the items
of the tree whose class is in the filter list, in traversal order. -/
theorem traverse_checks_snd (classes : List CheckClass) (c : Checks) :
    ∀ parent, ((traverse_checks c classes parent).2).map Prod.snd
      = c.allItems.filter (fun i => decide (i.check_class ∈ classes)) := by
  induction c using Checks.recOn_subs with
  | h s items subs ih =>
    intro parent
    have hl := traverse_checks_list_snd classes subs
      ((Option.getD parent ("[ROOT]")) ++ "/" ++ s.display) ih
    simp [traverse_checks, Checks.allItems, List.filter_append, List.map_map,
      Function.comp, hl]

/-- The boolean result of the children loop of `traverse_checks` is the OR
of the children's results, i.e. whether the forest contains a matching
item, given the per-child characterisation. -/
theorem traverse_checks_list_fst (classes : List CheckClass) :
    ∀ (l : List Checks) (st : String),
      (∀ c ∈ l, ∀ parent,
          (traverse_checks c classes parent).1
            = c.allItems.any (fun i => decide (i.check_class ∈ classes))) →
      (traverse_checks_list l classes st).1
        = (Checks.allItemsList l).any (fun i => decide (i.check_class ∈ classes))
  | [], _, _ => by simp [traverse_checks_list, Checks.allItemsList]
  | c :: cs, st, h => by
    have h1 := h c (by simp) (some st)
    have h2 := traverse_checks_list_fst classes cs st
      (fun x hx parent => h x (by simp [hx]) parent)
    simp [traverse_checks_list, Checks.allItemsList, List.any_append, h1, h2]

/-- The boolean result of `traverse_checks` says whether some item of the
tree has its class in the filter list. -/
theorem traverse_checks_fst (classes : List CheckClass) (c : Checks) :
    ∀ parent, (traverse_checks c classes parent).1
      = c.allItems.any (fun i => decide (i.check_class ∈ classes)) := by
  induction c using Checks.recOn_subs with
  | h s items subs ih =>
    intro parent
    have hl := traverse_checks_list_fst classes subs
      ((Option.getD parent ("[ROOT]")) ++ "/" ++ s.display) ih
    simp [traverse_checks, Checks.allItems, List.any_append,
      filter_isEmpty_eq_not_any, hl]

/-- The visitor log of the children loop is the concatenation, in order,
of the children's visitor logs. -/
theorem traverse_checks_list_snd_flatten (classes : List CheckClass) :
    ∀ (l : List Checks) (st : String),
      (traverse_checks_list l classes st).2
        = (l.map (fun c => (traverse_checks c classes (some st)).2)).flatten
  | [], _ => by simp [traverse_checks_list]
  | c :: cs, st => by
    simp [traverse_checks_list, traverse_checks_list_snd_flatten classes cs st]

/-- Rust derive order on `CheckClass` distinguishes equal from unequal
variants: the comparison is `eq` exactly on equal arguments. -/
theorem checkClass_cmp_eq_iff (a b : CheckClass) :
    CheckClass.cmp a b = Ordering.eq ↔ a = b := by
  cases a <;> cases b <;> decide

/-! The claim theorems. -/

/-- Claim C1: the check classification is total and pure: `Check.check_item`
is a total function on the check taxonomy, each identifier is assigned
exactly one `CheckClass`, and the returned `CheckItem` stores that class
together with the check identifier itself. -/
theorem check_item_total_and_stores_check :
    ∀ c : Check, (Check.check_item c).check = c
      ∧ ∃! cls : CheckClass, (Check.check_item c).check_class = cls := by
  intro c
  refine ⟨by cases c <;> rfl, ⟨(Check.check_item c).check_class, rfl, ?_⟩⟩
  intro y hy
  exact hy.symm

/-- Claim C2: `traverse_checks` returns `true` iff some item anywhere in
the tree (the node's own items or any descendant's) has its class in the
filter list, and the visitor is invoked exactly once per matching item
occurrence and never on a non-matching one; in particular with no match
it returns `false` and the visitor is never invoked. -/
theorem traverse_checks_found_iff_and_visits_once
    (checks : Checks) (classes : List CheckClass)
    (parent_tree : Option String) :
    ((traverse_checks checks classes parent_tree).1 = true ↔
      ∃ item ∈ checks.allItems, item.check_class ∈ classes)
    ∧ ∀ item : CheckItem,
        (((traverse_checks checks classes parent_tree).2).map Prod.snd).count
            item
          = if item.check_class ∈ classes then checks.allItems.count item
            else 0 := by
  constructor
  · rw [traverse_checks_fst]
    simp [List.any_eq_true]
  · intro item
    rw [traverse_checks_snd, count_filter_split]
    simp

/-- Claim C3: each node's path is the parent path (sentinel `"[ROOT]"` at
the root) with `"/"` and the node's label appended; a node's own matching
items are visited before its children, and children in tree order; on the
concrete Entity/Autnum tree with filter `[Informational]` the traversal
returns `true` and visits `"[ROOT]/entity"` then `"[ROOT]/entity/autnum"`,
once each, in that order. -/
theorem traverse_checks_path_order :
    (∀ (s : RdapStructure) (items : List CheckItem) (subs : List Checks)
        (classes : List CheckClass) (parent_tree : Option String),
      (traverse_checks (Checks.mk s items subs) classes parent_tree).2
        = (items.filter (fun item => decide (item.check_class ∈ classes))).map
            (fun item =>
              ((Option.getD parent_tree ("[ROOT]")) ++ "/" ++ s.display, item))
          ++ (subs.map (fun c =>
                (traverse_checks c classes
                  (some ((Option.getD parent_tree ("[ROOT]")) ++ "/"
                    ++ s.display))).2)).flatten)
    ∧ traverse_checks exampleEntityAutnumTree [CheckClass.Informational] none
        = (true,
           [("[ROOT]/entity",
             ⟨CheckClass.Informational, Check.RdapConformanceInvalidParent⟩),
            ("[ROOT]/entity/autnum",
             ⟨CheckClass.Informational, Check.VariantEmptyDomain⟩)]) := by
  constructor
  · intro s items subs classes parent_tree
    simp [traverse_checks, traverse_checks_list_snd_flatten]
  · decide

/-- Claim C4: `is_checked` is `true` iff the check appears verbatim in the
own item list of one of the trees in the slice; it does not recurse into
`sub_checks`, and a distinct identifier does not match. -/
theorem is_checked_iff_in_own_items :
    (∀ (check : Check) (trees : List Checks),
      is_checked check trees = true ↔
        ∃ t ∈ trees, ∃ item ∈ t.items, item.check = check)
    ∧ is_checked Check.VariantEmptyDomain [subOnlyTree] = false
    ∧ is_checked Check.StatusIsEmpty [distinctIdTree] = false
    ∧ is_checked Check.HandleIsEmpty [distinctIdTree] = true := by
  refine ⟨?_, by decide, by decide, by decide⟩
  intro check trees
  simp [is_checked, is_checked_item, List.any_eq_true]

/-- Claim C5, counterexample: contrary to the claim that `StatusIsEmpty`
and `RoleIsEmpty` are classified like `HandleIsEmpty` (StdWarning),
`Check.check_item` classifies `StatusIsEmpty` as `StdError`, which is not
`StdWarning`. -/
theorem status_role_empty_not_std_warning :
    (Check.check_item Check.StatusIsEmpty).check_class = CheckClass.StdError
    ∧ ¬ (Check.check_item Check.StatusIsEmpty).check_class
        = CheckClass.StdWarning := by
  decide

/-- Claim C5, amended: empty or whitespace-only status and role values are
classified `StdError` — one level above the `StdWarning` of an empty
handle — while a role outside the registered vocabulary (`UnknownRole`)
is classified `StdWarning`. -/
theorem status_role_empty_classified_std_error :
    (Check.check_item Check.StatusIsEmpty).check_class = CheckClass.StdError
    ∧ (Check.check_item Check.RoleIsEmpty).check_class = CheckClass.StdError
    ∧ (Check.check_item Check.HandleIsEmpty).check_class
        = CheckClass.StdWarning
    ∧ (Check.check_item Check.UnknownRole).check_class
        = CheckClass.StdWarning := by
  decide

/-- Claim C6: the derived order on `CheckClass` is the total order
Informational < SpecificationNote < StdWarning < StdError < Cidr0Error <
IcannError: all fifteen strict pairwise comparisons hold, and the
comparison is `eq` exactly on equal classes. -/
theorem check_class_order_total :
    (CheckClass.cmp CheckClass.Informational CheckClass.SpecificationNote
        = Ordering.lt)
    ∧ (CheckClass.cmp CheckClass.Informational CheckClass.StdWarning
        = Ordering.lt)
    ∧ (CheckClass.cmp CheckClass.Informational CheckClass.StdError
        = Ordering.lt)
    ∧ (CheckClass.cmp CheckClass.Informational CheckClass.Cidr0Error
        = Ordering.lt)
    ∧ (CheckClass.cmp CheckClass.Informational CheckClass.IcannError
        = Ordering.lt)
    ∧ (CheckClass.cmp CheckClass.SpecificationNote CheckClass.StdWarning
        = Ordering.lt)
    ∧ (CheckClass.cmp CheckClass.SpecificationNote CheckClass.StdError
        = Ordering.lt)
    ∧ (CheckClass.cmp CheckClass.SpecificationNote CheckClass.Cidr0Error
        = Ordering.lt)
    ∧ (CheckClass.cmp CheckClass.SpecificationNote CheckClass.IcannError
        = Ordering.lt)
    ∧ (CheckClass.cmp CheckClass.StdWarning CheckClass.StdError
        = Ordering.lt)
    ∧ (CheckClass.cmp CheckClass.StdWarning CheckClass.Cidr0Error
        = Ordering.lt)
    ∧ (CheckClass.cmp CheckClass.StdWarning CheckClass.IcannError
        = Ordering.lt)
    ∧ (CheckClass.cmp CheckClass.StdError CheckClass.Cidr0Error
        = Ordering.lt)
    ∧ (CheckClass.cmp CheckClass.StdError CheckClass.IcannError
        = Ordering.lt)
    ∧ (CheckClass.cmp CheckClass.Cidr0Error CheckClass.IcannError
        = Ordering.lt)
    ∧ ∀ a b : CheckClass, CheckClass.cmp a b = Ordering.eq ↔ a = b := by
  refine ⟨by decide, by decide, by decide, by decide, by decide, by decide,
    by decide, by decide, by decide, by decide, by decide, by decide,
    by decide, by decide, by decide, checkClass_cmp_eq_iff⟩

/-- Claim C7: the derived comparison on `CheckItem` is structural, by
class then by numeric code: `a` sorts strictly before `b` iff its class
does, or the classes are equal and `a`'s numeric check code is smaller;
two items are equal iff both fields are equal. -/
theorem check_item_cmp_structural :
    ∀ a b : CheckItem,
      (CheckItem.cmp a b = Ordering.lt ↔
        (CheckClass.cmp a.check_class b.check_class = Ordering.lt
          ∨ (a.check_class = b.check_class
              ∧ a.check.code < b.check.code)))
      ∧ (a = b ↔ (a.check_class = b.check_class ∧ a.check = b.check)) := by
  intro a b
  constructor
  · cases h : CheckClass.cmp a.check_class b.check_class with
    | lt => simp [CheckItem.cmp, h]
    | eq =>
      have hab : a.check_class = b.check_class :=
        (checkClass_cmp_eq_iff a.check_class b.check_class).mp h
      simp only [CheckItem.cmp]
      rw [h]
      simp [hab, Check.cmp, Nat.compare_eq_lt]
    | gt =>
      have hne : a.check_class ≠ b.check_class := by
        intro he
        have heq :=
          (checkClass_cmp_eq_iff a.check_class b.check_class).mpr he
        rw [h] at heq
        exact Ordering.noConfusion heq
      simp [CheckItem.cmp, h, hne]
  · cases a with
    | mk ac ak =>
      cases b with
      | mk bc bk => simp

/-- Claim C8: each special-use IP-range check and each special-use
AS-number check is classified `Informational`, while `IpAddressMalformed`
is classified `StdError`. -/
theorem special_use_ip_autnum_informational :
    (Check.check_item Check.IpAddressThisNetwork).check_class
        = CheckClass.Informational
    ∧ (Check.check_item Check.IpAddressPrivateUse).check_class
        = CheckClass.Informational
    ∧ (Check.check_item Check.IpAddressSharedNat).check_class
        = CheckClass.Informational
    ∧ (Check.check_item Check.IpAddressLoopback).check_class
        = CheckClass.Informational
    ∧ (Check.check_item Check.IpAddressLinkLocal).check_class
        = CheckClass.Informational
    ∧ (Check.check_item Check.IpAddressUniqueLocal).check_class
        = CheckClass.Informational
    ∧ (Check.check_item Check.IpAddressDocumentationNet).check_class
        = CheckClass.Informational
    ∧ (Check.check_item Check.IpAddressReservedNet).check_class
        = CheckClass.Informational
    ∧ (Check.check_item Check.AutnumPrivateUse).check_class
        = CheckClass.Informational
    ∧ (Check.check_item Check.AutnumDocumentation).check_class
        = CheckClass.Informational
    ∧ (Check.check_item Check.AutnumReserved).check_class
        = CheckClass.Informational
    ∧ (Check.check_item Check.IpAddressMalformed).check_class
        = CheckClass.StdError := by
  decide

/-- Claim C9: `CheckParams.from_parent` overrides only the `parent_type`
field; `do_subchecks`, `root` and `allow_unreg_ext` are copied unchanged. -/
theorem from_parent_overrides_only_parent_type :
    ∀ (p : CheckParams) (t : TypeId),
      (p.from_parent t).parent_type = t
      ∧ (p.from_parent t).do_subchecks = p.do_subchecks
      ∧ (p.from_parent t).root = p.root
      ∧ (p.from_parent t).allow_unreg_ext = p.allow_unreg_ext :=
  fun _ _ => ⟨rfl, rfl, rfl, rfl⟩

/-- Claim C10: `is_checked_item` ignores the stored severity class: it is
`true` iff some own item's `check` field equals the queried check, and an
item carrying a class different from the canonical classification still
matches. -/
theorem is_checked_item_ignores_class :
    (∀ (check : Check) (n : Checks),
      is_checked_item check n = true ↔ ∃ item ∈ n.items, item.check = check)
    ∧ is_checked_item Check.HandleIsEmpty nonCanonicalTree = true
    ∧ (Check.check_item Check.HandleIsEmpty).check_class
        ≠ CheckClass.Informational := by
  refine ⟨?_, by decide, by decide⟩
  intro check n
  simp [is_checked_item, List.any_eq_true]

end IcannRdap
